import Mathlib

/-!
Shallow embedding of `shopkeep_combine_csv.py` (the `main` pipeline and its
helpers) and verification of the specification's claims about it.

Modelling conventions:
* A parsed CSV table is a header (`List String`) plus data rows
  (`List (List String)`), exactly what Python's `csv.reader` yields per line.
* A cell value is `Option String`: `none` models Python's `None` rest-value
  that `csv.DictReader` assigns to declared columns a short line left absent;
  `some ""` is an empty string in the line, which is a present value.
* A `DictReader` row is the association list obtained by zipping the header
  with the line's values (`dictZip`); lookups take the last binding for a
  key, matching `dict(zip(...))` overwrite semantics, and the rest key
  `"Unexpected Fields"` is tracked by `hasUnexpected`.
* Python `dict`s (`tenders_dup`, `tenders`) preserve first-insertion order
  with last-write-wins values; `dinsert`/`dlookup` reproduce that.  The two
  dicts are always written together under the same key, so the index maps a
  key to the pair (duplicate-check record, payload record).
* The script prints output lines as it iterates the item table, so a run's
  observable behaviour is the list of lines written before it stopped plus
  an optional error (`RunOutcome`).  `list(tenders)[0]` on an empty dict is
  the uncaught `IndexError`, modelled by `RunError.IndexErrorCrash`.
-/

set_option autoImplicit false

namespace ShopkeepCombineCsv

/-- The eight column names shared by both reports (source set `COMMON_FIELDS`,
kept in the literal's order; Python holds them as a set). -/
def COMMON_FIELDS : List String :=
  ["Transaction ID", "Time", "Register Name/Number", "Cashier Name",
   "Operation Type", "Net Total", "Tax", "Total Due"]

/-- The item-report schema (source set `ITEM_FIELDS`): common fields plus the
fourteen item-specific ones. -/
def ITEM_FIELDS : List String :=
  COMMON_FIELDS ++
  ["Category", "Cost", "Customer ID", "Department", "Discounts", "Line Item",
   "Modifiers", "Price", "Quantity", "Store Code", "Subtotal",
   "Supplier Code", "Supplier", "UPC"]

/-- The tenders-report schema (source set `TENDERS_FIELDS`): common fields plus
the twelve tender-specific ones. -/
def TENDERS_FIELDS : List String :=
  COMMON_FIELDS ++
  ["Card Type", "Cardholder Name", "Customer Email", "Customer Name",
   "Discount", "Gross Amount", "Last 4 Digits", "New Liabilities",
   "Receipt Number", "Tender Type", "Tendered Amount", "Tips"]

/-- Python set equality `set(a) == set(b)` on lists of names. -/
def setEq (a b : List String) : Bool :=
  a.all (fun x => decide (x ∈ b)) && b.all (fun x => decide (x ∈ a))

/-- A cell value: `none` is Python `None` (absent field of a short line). -/
abbrev Value := Option String

/-- A `DictReader` row: the header zipped with the line's values. -/
abbrev Row := List (String × Value)

/-- `dict(zip(fieldnames, row))` plus `restval = None` for missing fields:
one binding per header position, `none` where the line is too short. -/
def dictZip (hdr : List String) (vals : List String) : Row :=
  hdr.enum.map (fun p => (p.2, vals.get? p.1))

/-- Dictionary lookup in an association list where a later binding for a key
overwrites an earlier one (Python `dict` built by repeated assignment). -/
def dlookup {κ α : Type} [DecidableEq κ] : List (κ × α) → κ → Option α
  | [], _ => none
  | p :: r, k =>
    match dlookup r k with
    | some v => some v
    | none => if p.1 = k then some p.2 else none

/-- `row[k]` for a `DictReader` row (total: every declared column is bound). -/
def rget (r : Row) (k : String) : Value := (dlookup r k).getD none

/-- `None in row.values()`: some declared column's final value is `None`. -/
def hasNoneValue (r : Row) : Bool := r.any (fun p => (rget r p.1).isNone)

/-- `'Unexpected Fields' in row`: the rest key was filled because the line had
more values than the header declares (or the header itself declares it). -/
def hasUnexpected (hdr : List String) (vals : List String) : Bool :=
  decide ("Unexpected Fields" ∈ hdr) || decide (hdr.length < vals.length)

/-- Both per-row checks of the script pass for this line. -/
def rowOk (hdr : List String) (vals : List String) : Bool :=
  !hasNoneValue (dictZip hdr vals) && !hasUnexpected hdr vals

/-- Python `dict` assignment `m[k] = v`: overwrite in place if the key exists
(keeping first-insertion order), else append. -/
def dinsert {κ α : Type} [DecidableEq κ] (m : List (κ × α)) (k : κ) (v : α) :
    List (κ × α) :=
  if m.any (fun p => decide (p.1 = k)) then
    m.map (fun p => if p.1 = k then (k, v) else p)
  else m ++ [(k, v)]

/-- The error taxonomy of the spec, each carrying the message the script
prints to stderr; `IndexErrorCrash` is the uncaught `IndexError` of
`list(tenders)[0]` on an empty index. -/
inductive RunError : Type
  | SchemaMismatch (msg : String)
  | MalformedRow (msg : String)
  | UnexpectedColumns (msg : String)
  | UnknownTransaction (msg : String)
  | DuplicateFieldMismatch (msg : String)
  | IndexErrorCrash
  deriving DecidableEq, Repr

/-- Duplicate-check record: the dict literal of source lines 153-158. -/
abbrev DupRec := List (String × Value)

/-- Payload record: the dict literal of source lines 160-176. -/
abbrev Payload := List (String × Value)

/-- The tenders index: `tenders_dup` and `tenders` are written in lockstep
under the same key, so we keep one ordered map to the pair of records.
Keys are `Value` because Python would happily key a dict by `None`. -/
abbrev Index := List (Value × (DupRec × Payload))

/-- `row['Transaction ID']` of the line parsed against `hdr`. -/
def tidOf (hdr : List String) (vals : List String) : Value :=
  rget (dictZip hdr vals) "Transaction ID"

/-- The duplicate-check record built from a tenders line
(source lines 153-158, in the literal's key order). -/
def drecOf (hdr : List String) (vals : List String) : DupRec :=
  let row := dictZip hdr vals
  [("Time", rget row "Time"),
   ("Register Name/Number", rget row "Register Name/Number"),
   ("Cashier Name", rget row "Cashier Name"),
   ("Operation Type", rget row "Operation Type")]

/-- The payload record built from a tenders line (source lines 160-176, in the
literal's key order; the three common money fields are renamed). -/
def payloadOf (hdr : List String) (vals : List String) : Payload :=
  let row := dictZip hdr vals
  [("Customer Name", rget row "Customer Name"),
   ("Customer Email", rget row "Customer Email"),
   ("Gross Amount", rget row "Gross Amount"),
   ("Discount", rget row "Discount"),
   ("Tenders Net Total", rget row "Net Total"),
   ("New Liabilities", rget row "New Liabilities"),
   ("Tenders Tax", rget row "Tax"),
   ("Tenders Total Due", rget row "Total Due"),
   ("Tips", rget row "Tips"),
   ("Tendered Amount", rget row "Tendered Amount"),
   ("Tender Type", rget row "Tender Type"),
   ("Card Type", rget row "Card Type"),
   ("Last 4 Digits", rget row "Last 4 Digits"),
   ("Cardholder Name", rget row "Cardholder Name"),
   ("Receipt Number", rget row "Receipt Number")]

/-- The tenders loop (source lines 143-176): per line, skip blank lines (as
`DictReader` does), run the two row checks, then insert both records under
the Transaction ID.  `tFile` is the string the script interpolates for
`args.tenders_CSV`. -/
def buildTendersAux (tFile : String) (hdr : List String) (acc : Index) :
    List (List String) → Except RunError Index
  | [] => .ok acc
  | vals :: rest =>
    if vals.isEmpty then buildTendersAux tFile hdr acc rest
    else if hasNoneValue (dictZip hdr vals) then
      .error (.MalformedRow ("Empty value in tender from " ++ tFile ++ "."))
    else if hasUnexpected hdr vals then
      .error (.UnexpectedColumns ("Extra value in tender from " ++ tFile ++ "."))
    else
      buildTendersAux tFile hdr
        (dinsert acc (tidOf hdr vals) (drecOf hdr vals, payloadOf hdr vals)) rest

/-- Python `f'{v}'` for a value that may be `None`. -/
def pyStr (v : Value) : String := v.getD "None"

/-- Python truthiness of an optional list (`None` and `[]` are falsy). -/
def pyTruthy {α : Type} : Option (List α) → Bool
  | some l => !l.isEmpty
  | none => false

/-- The output column computation (source lines 188-193): a truthy `include`
is used verbatim; otherwise item header order followed by the tenders payload
order, filtered by a truthy `exclude`. -/
def computeFields (includeQ excludeQ : Option (List String))
    (itemFieldnames tendersFieldnames : List String) : List String :=
  if pyTruthy includeQ then includeQ.getD []
  else
    let fields := itemFieldnames ++ tendersFieldnames
    if pyTruthy excludeQ then
      fields.filter (fun v => !decide (v ∈ excludeQ.getD []))
    else fields

/-- `row.update(tenders[t_id])` (source line 218): fold the payload bindings
into the item row, overwriting where a key already exists. -/
def mergedRowOf (hdr : List String) (payload : Payload) (vals : List String) :
    Row :=
  payload.foldl (fun r q => dinsert r q.1 q.2) (dictZip hdr vals)

/-- `','.join([row[key] for key in fields])` (source lines 220-221). -/
def lineOf (fields : List String) (merged : Row) : String :=
  String.intercalate "," (fields.map (fun k => pyStr (rget merged k)))

/-- The item loop (source lines 197-221): per line, the two row checks, the
index lookup, the duplicate-check comparison in the record's key order, then
merge and print.  Returns the lines printed before stopping and the error, if
any, that stopped the loop.  Note every stderr message interpolates `tFile`. -/
def mergeLoop (tFile : String) (hdr : List String) (fields : List String)
    (idx : Index) : List (List String) → List String × Option RunError
  | [] => ([], none)
  | vals :: rest =>
    if vals.isEmpty then mergeLoop tFile hdr fields idx rest
    else if hasNoneValue (dictZip hdr vals) then
      ([], some (.MalformedRow ("Empty value in item from " ++ tFile ++ ".")))
    else if hasUnexpected hdr vals then
      ([], some (.UnexpectedColumns ("Extra value in item from " ++ tFile ++ ".")))
    else
      match dlookup idx (tidOf hdr vals) with
      | none =>
        ([], some (.UnknownTransaction
          (pyStr (tidOf hdr vals) ++ " is not in " ++ tFile ++ ".")))
      | some recs =>
        match recs.1.find?
            (fun q => decide (q.2 ≠ rget (dictZip hdr vals) q.1)) with
        | some q =>
          ([], some (.DuplicateFieldMismatch
            ("Mismatch between item and tender for " ++ q.1 ++ ".")))
        | none =>
          let out := mergeLoop tFile hdr fields idx rest
          (lineOf fields (mergedRowOf hdr recs.2 vals) :: out.1, out.2)

/-- What a run of `main` writes to the output sink, plus the error (if any)
that made it return 1 or crash. -/
structure RunOutcome where
  output : List String
  error : Option RunError
  deriving DecidableEq, Repr

/-- The whole pipeline of `main` after argument parsing (source lines
133-223): tenders schema check, tenders loop, payload field-name extraction
from the first index entry (`list(tenders)[0]`, an `IndexError` on an empty
index), item schema check, column computation, header line, item loop.
`tFile` and `iFile` are the strings the script would interpolate for the two
report arguments; `iFile` is never used, because every message of the source
interpolates `args.tenders_CSV`. -/
def run (tFile iFile : String)
    (tendersFieldnames0 : List String) (tendersRows : List (List String))
    (itemFieldnames : List String) (itemRows : List (List String))
    (includeQ excludeQ : Option (List String)) : RunOutcome :=
  let _ := iFile
  if !setEq tendersFieldnames0 TENDERS_FIELDS then
    { output := [],
      error := some (.SchemaMismatch
        (tFile ++ " is not a \"Transactions Tenders\" report.")) }
  else
    match buildTendersAux tFile tendersFieldnames0 [] tendersRows with
    | .error e => { output := [], error := some e }
    | .ok idx =>
      match idx.head? with
      | none => { output := [], error := some .IndexErrorCrash }
      | some first =>
        let tendersFieldnames := first.2.2.map Prod.fst
        if !setEq itemFieldnames ITEM_FIELDS then
          { output := [],
            error := some (.SchemaMismatch
              (tFile ++ " is not a \"Transactions by Item\" report.")) }
        else
          let fields :=
            computeFields includeQ excludeQ itemFieldnames tendersFieldnames
          let res := mergeLoop tFile itemFieldnames fields idx itemRows
          { output := String.intercalate "," fields :: res.1, error := res.2 }

/-- The key order of the payload dict literal (source lines 160-176); this is
the order `list(tenders[list(tenders)[0]])` yields at source line 181. -/
def TENDERS_PAYLOAD_ORDER : List String :=
  ["Customer Name", "Customer Email", "Gross Amount", "Discount",
   "Tenders Net Total", "New Liabilities", "Tenders Tax", "Tenders Total Due",
   "Tips", "Tendered Amount", "Tender Type", "Card Type", "Last 4 Digits",
   "Cardholder Name", "Receipt Number"]

/-- The key order of the duplicate-check dict literal (source lines 153-158),
which is the comparison order of the loop at source lines 212-216. -/
def DUP_CHECK_ORDER : List String :=
  ["Time", "Register Name/Number", "Cashier Name", "Operation Type"]

/-- For each payload column name, the tenders column it is copied from
(the key mapping of the dict literal at source lines 160-176): the three
common money fields are renamed, every other payload field keeps its name. -/
def renameSrc (k : String) : String :=
  if k = "Tenders Net Total" then "Net Total"
  else if k = "Tenders Tax" then "Tax"
  else if k = "Tenders Total Due" then "Total Due"
  else k

/-- One iteration of the tenders loop on a row that passes both checks:
insert the two records under the row's Transaction ID. -/
def tStep (hdr : List String) (acc : Index) (vals : List String) : Index :=
  dinsert acc (tidOf hdr vals) (drecOf hdr vals, payloadOf hdr vals)

/-- An item line on which the item loop merges and prints (rather than
stopping): non-blank, passes both row checks, its Transaction ID is in the
index, and every duplicate-check field agrees. -/
def mergeOk (hdr : List String) (idx : Index) (vals : List String) : Bool :=
  !vals.isEmpty && rowOk hdr vals &&
    (match dlookup idx (tidOf hdr vals) with
     | none => false
     | some recs => recs.1.all (fun q => q.2 == rget (dictZip hdr vals) q.1))

/-- `tenders[t_id]` for an item line whose key is in the index. -/
def payloadLookup (hdr : List String) (idx : Index) (vals : List String) :
    Payload :=
  ((dlookup idx (tidOf hdr vals)).getD ([], [])).2

/-- The output line the item loop prints for a mergeable item line. -/
def outLineOf (hdr fields : List String) (idx : Index) (vals : List String) :
    String :=
  lineOf fields (mergedRowOf hdr (payloadLookup hdr idx vals) vals)

/-! Concrete sample tables used by witnesses and counterexamples.  Rows are
given in the order of `TENDERS_FIELDS` / `ITEM_FIELDS` used as headers. -/

/-- A well-formed tenders line with Transaction ID `T1`, Cashier `Alice`. -/
def sampleTendersRow : List String :=
  ["T1", "10:00", "Reg1", "Alice", "Sale", "9.00", "0.90", "9.90", "Visa",
   "AL", "a@b.c", "Al", "0.00", "9.90", "1234", "0.00", "R1", "Credit",
   "9.90", "0.00"]

/-- A second tenders line with the same Transaction ID `T1`, Cashier `Zoe`. -/
def sampleTendersRow2 : List String :=
  ["T1", "11:00", "Reg2", "Zoe", "Refund", "8.00", "0.80", "8.80", "MC",
   "ZO", "z@b.c", "Zo", "0.10", "8.80", "9999", "0.00", "R2", "Debit",
   "8.80", "1.00"]

/-- A well-formed item line for `T1` agreeing with `sampleTendersRow` on all
four duplicate-check fields; its Modifiers column is the empty string. -/
def sampleItemRow : List String :=
  ["T1", "10:00", "Reg1", "Alice", "Sale", "5.00", "0.50", "5.50", "Cat",
   "1.00", "C1", "Dep", "0.00", "Item1", "", "2.50", "2", "SC", "5.00",
   "SUP1", "Sup", "111"]

/-- An item line whose Transaction ID `T2` is absent from the sample index. -/
def sampleItemRowT2 : List String :=
  ["T2", "10:00", "Reg1", "Alice", "Sale", "5.00", "0.50", "5.50", "Cat",
   "1.00", "C1", "Dep", "0.00", "Item1", "", "2.50", "2", "SC", "5.00",
   "SUP1", "Sup", "111"]

/-- An item line for `T1` that disagrees with `sampleTendersRow` on
Cashier Name (`Bob` instead of `Alice`). -/
def sampleItemRowBob : List String :=
  ["T1", "10:00", "Reg1", "Bob", "Sale", "5.00", "0.50", "5.50", "Cat",
   "1.00", "C1", "Dep", "0.00", "Item1", "", "2.50", "2", "SC", "5.00",
   "SUP1", "Sup", "111"]

/-- The index the tenders loop builds from `[sampleTendersRow]`. -/
def sampleIdx : Index := tStep TENDERS_FIELDS [] sampleTendersRow

/-! Helper lemmas about the Python-dict model. -/

theorem dlookup_append {κ α : Type} [DecidableEq κ] (a b : List (κ × α))
    (k : κ) : dlookup (a ++ b) k = (dlookup b k).or (dlookup a k) := by
  induction a with
  | nil => cases h : dlookup b k <;> simp [dlookup, h]
  | cons p r ih =>
    simp only [List.cons_append, dlookup]
    cases h : dlookup b k <;> cases h2 : dlookup r k <;> simp [ih, h, h2]

theorem dlookup_eq_none_of_all_ne {κ α : Type} [DecidableEq κ]
    (m : List (κ × α)) (k : κ) (h : ∀ p ∈ m, p.1 ≠ k) : dlookup m k = none := by
  induction m with
  | nil => rfl
  | cons p r ih =>
    have hp : p.1 ≠ k := h p (by simp)
    have hr := ih (fun q hq => h q (by simp [hq]))
    simp [dlookup, hr, hp]

theorem dlookup_map_overwrite_ne {κ α : Type} [DecidableEq κ]
    (m : List (κ × α)) (k k' : κ) (v : α) (hne : k' ≠ k) :
    dlookup (m.map (fun p => if p.1 = k then (k, v) else p)) k' =
      dlookup m k' := by
  induction m with
  | nil => rfl
  | cons p r ih =>
    simp only [List.map_cons, dlookup, ih]
    cases hd : dlookup r k' with
    | some w => simp
    | none =>
      by_cases hp : p.1 = k
      · simp [hp, Ne.symm hne]
      · simp [hp]

theorem dlookup_map_overwrite_eq {κ α : Type} [DecidableEq κ]
    (m : List (κ × α)) (k : κ) (v : α) (h : ∃ p ∈ m, p.1 = k) :
    dlookup (m.map (fun p => if p.1 = k then (k, v) else p)) k = some v := by
  induction m with
  | nil => simp at h
  | cons p r ih =>
    by_cases hr : ∃ q ∈ r, q.1 = k
    · have := ih hr
      simp only [List.map_cons, dlookup, this]
    · have hall : ∀ q ∈ r, q.1 ≠ k := by
        intro q hq hqk; exact hr ⟨q, hq, hqk⟩
      have hrn : dlookup (r.map (fun p => if p.1 = k then (k, v) else p)) k
          = none := by
        apply dlookup_eq_none_of_all_ne
        intro q hq
        obtain ⟨q0, hq0, rfl⟩ := List.mem_map.mp hq
        have := hall q0 hq0
        simp [this]
      have hp : p.1 = k := by
        obtain ⟨q, hq, hqk⟩ := h
        rcases List.mem_cons.mp hq with rfl | hmem
        · exact hqk
        · exact absurd hqk (hall q hmem)
      simp [List.map_cons, dlookup, hrn, hp]

theorem dlookup_dinsert {κ α : Type} [DecidableEq κ] (m : List (κ × α))
    (k k' : κ) (v : α) :
    dlookup (dinsert m k v) k' = if k' = k then some v else dlookup m k' := by
  unfold dinsert
  by_cases hany : m.any (fun p => decide (p.1 = k)) = true
  · rw [if_pos hany]
    by_cases hk : k' = k
    · subst hk
      rw [if_pos rfl]
      apply dlookup_map_overwrite_eq
      obtain ⟨p, hp, hpk⟩ := List.any_eq_true.mp hany
      exact ⟨p, hp, of_decide_eq_true hpk⟩
    · rw [if_neg hk]
      exact dlookup_map_overwrite_ne m k k' v hk
  · rw [if_neg hany, dlookup_append]
    by_cases hk : k' = k
    · subst hk; simp [dlookup]
    · rw [if_neg hk]
      simp [dlookup, Ne.symm hk]

theorem rget_dinsert (r : Row) (k k' : String) (v : Value) :
    rget (dinsert r k v) k' = if k' = k then v else rget r k' := by
  unfold rget
  rw [dlookup_dinsert]
  by_cases hk : k' = k <;> simp [hk]

theorem mem_dinsert {κ α : Type} [DecidableEq κ] (m : List (κ × α)) (k : κ)
    (v : α) (e : κ × α) (he : e ∈ dinsert m k v) : e ∈ m ∨ e = (k, v) := by
  unfold dinsert at he
  by_cases hany : m.any (fun p => decide (p.1 = k)) = true
  · rw [if_pos hany] at he
    obtain ⟨p, hp, hpe⟩ := List.mem_map.mp he
    by_cases hk : p.1 = k
    · right
      rw [if_pos hk] at hpe
      exact hpe.symm
    · left
      rw [if_neg hk] at hpe
      exact hpe ▸ hp
  · rw [if_neg hany] at he
    rcases List.mem_append.mp he with h | h
    · exact .inl h
    · exact .inr (List.mem_singleton.mp h)

/-! Lemmas about merging payload bindings into a row
(`row.update(tenders[t_id])`). -/

theorem rget_update_not_mem (p : Payload) (r : Row) (k : String)
    (h : ∀ q ∈ p, q.1 ≠ k) :
    rget (p.foldl (fun r q => dinsert r q.1 q.2) r) k = rget r k := by
  induction p generalizing r with
  | nil => rfl
  | cons q rest ih =>
    simp only [List.foldl_cons]
    rw [ih _ (fun q' hq' => h q' (by simp [hq'])), rget_dinsert,
      if_neg (fun hkq => h q (by simp) hkq.symm)]

theorem rget_update_mem (p : Payload) (r : Row) (q : String × Value)
    (hnd : (p.map Prod.fst).Nodup) (hq : q ∈ p) :
    rget (p.foldl (fun r q => dinsert r q.1 q.2) r) q.1 = q.2 := by
  induction p generalizing r with
  | nil => simp at hq
  | cons q0 rest ih =>
    simp only [List.map_cons, List.nodup_cons] at hnd
    simp only [List.foldl_cons]
    rcases List.mem_cons.mp hq with rfl | hmem
    · have hall : ∀ q' ∈ rest, q'.1 ≠ q.1 := by
        intro q' hq' heq
        exact hnd.1 (heq ▸ List.mem_map_of_mem Prod.fst hq')
      rw [rget_update_not_mem rest _ _ hall, rget_dinsert, if_pos rfl]
    · exact ih _ hnd.2 hmem

theorem rget_mergedRowOf_mem (hdr : List String) (p : Payload)
    (vals : List String) (q : String × Value) (hnd : (p.map Prod.fst).Nodup)
    (hq : q ∈ p) : rget (mergedRowOf hdr p vals) q.1 = q.2 :=
  rget_update_mem p (dictZip hdr vals) q hnd hq

theorem payloadOf_keys (hdr : List String) (vals : List String) :
    (payloadOf hdr vals).map Prod.fst = TENDERS_PAYLOAD_ORDER := rfl

theorem drecOf_keys (hdr : List String) (vals : List String) :
    (drecOf hdr vals).map Prod.fst = DUP_CHECK_ORDER := rfl

/-! Characterization of the tenders loop. -/

theorem rowOk_spec (hdr : List String) (vals : List String)
    (h : rowOk hdr vals = true) :
    hasNoneValue (dictZip hdr vals) = false ∧ hasUnexpected hdr vals = false := by
  simpa [rowOk, Bool.and_eq_true, Bool.not_eq_true'] using h

theorem buildTendersAux_cons_ok (tFile : String) (hdr : List String)
    (acc : Index) (vals : List String) (rest : List (List String))
    (h1 : vals ≠ []) (h2 : rowOk hdr vals = true) :
    buildTendersAux tFile hdr acc (vals :: rest) =
      buildTendersAux tFile hdr (tStep hdr acc vals) rest := by
  have hne : vals.isEmpty = false := List.isEmpty_eq_false.mpr h1
  obtain ⟨hn, hu⟩ := rowOk_spec hdr vals h2
  simp [buildTendersAux, hne, hn, hu, tStep]

theorem buildTendersAux_ok (tFile : String) (hdr : List String) (acc : Index)
    (rows : List (List String))
    (h : ∀ vs ∈ rows, vs ≠ [] ∧ rowOk hdr vs = true) :
    buildTendersAux tFile hdr acc rows = .ok (rows.foldl (tStep hdr) acc) := by
  induction rows generalizing acc with
  | nil => rfl
  | cons vals rest ih =>
    obtain ⟨h1, h2⟩ := h vals (by simp)
    rw [buildTendersAux_cons_ok tFile hdr acc vals rest h1 h2, List.foldl_cons]
    exact ih _ (fun vs hvs => h vs (by simp [hvs]))

theorem buildTendersAux_append_ok (tFile : String) (hdr : List String)
    (acc : Index) (pre rows : List (List String))
    (h : ∀ vs ∈ pre, vs ≠ [] ∧ rowOk hdr vs = true) :
    buildTendersAux tFile hdr acc (pre ++ rows) =
      buildTendersAux tFile hdr (pre.foldl (tStep hdr) acc) rows := by
  induction pre generalizing acc with
  | nil => rfl
  | cons vals rest ih =>
    obtain ⟨h1, h2⟩ := h vals (by simp)
    rw [List.cons_append,
      buildTendersAux_cons_ok tFile hdr acc vals (rest ++ rows) h1 h2,
      List.foldl_cons]
    exact ih _ (fun vs hvs => h vs (by simp [hvs]))

theorem buildTendersAux_cons_noneValue (tFile : String) (hdr : List String)
    (acc : Index) (vals : List String) (rest : List (List String))
    (h1 : vals ≠ []) (h2 : hasNoneValue (dictZip hdr vals) = true) :
    buildTendersAux tFile hdr acc (vals :: rest) =
      .error (.MalformedRow ("Empty value in tender from " ++ tFile ++ ".")) := by
  have hne : vals.isEmpty = false := List.isEmpty_eq_false.mpr h1
  simp [buildTendersAux, hne, h2]

theorem buildTendersAux_cons_unexpected (tFile : String) (hdr : List String)
    (acc : Index) (vals : List String) (rest : List (List String))
    (h1 : vals ≠ []) (h2 : hasNoneValue (dictZip hdr vals) = false)
    (h3 : hasUnexpected hdr vals = true) :
    buildTendersAux tFile hdr acc (vals :: rest) =
      .error (.UnexpectedColumns ("Extra value in tender from " ++ tFile ++ ".")) := by
  have hne : vals.isEmpty = false := List.isEmpty_eq_false.mpr h1
  simp [buildTendersAux, hne, h2, h3]

theorem dlookup_foldl_tStep (hdr : List String) (rows : List (List String))
    (acc : Index) (t : Value) :
    dlookup (rows.foldl (tStep hdr) acc) t =
      match rows.reverse.find? (fun vs => decide (tidOf hdr vs = t)) with
      | some vs => some (drecOf hdr vs, payloadOf hdr vs)
      | none => dlookup acc t := by
  induction rows generalizing acc with
  | nil => rfl
  | cons vals rest ih =>
    rw [List.foldl_cons, ih, List.reverse_cons, List.find?_append]
    cases hf : rest.reverse.find? (fun vs => decide (tidOf hdr vs = t)) with
    | some vs => simp
    | none =>
      simp only [Option.none_or]
      rw [tStep, dlookup_dinsert]
      by_cases ht : tidOf hdr vals = t
      · simp [List.find?, ht]
      · have : ¬t = tidOf hdr vals := fun h => ht h.symm
        simp [List.find?, ht, this]

theorem buildTendersAux_entries (tFile : String) (hdr : List String)
    (rows : List (List String)) (acc idx : Index)
    (hb : buildTendersAux tFile hdr acc rows = .ok idx) (e : Value × DupRec × Payload)
    (he : e ∈ idx) :
    e ∈ acc ∨ ∃ vs ∈ rows, e = (tidOf hdr vs, (drecOf hdr vs, payloadOf hdr vs)) := by
  induction rows generalizing acc with
  | nil =>
    left
    cases hb
    exact he
  | cons vals rest ih =>
    unfold buildTendersAux at hb
    by_cases hne : vals.isEmpty
    · rw [if_pos hne] at hb
      rcases ih acc hb with h | ⟨vs, hvs, hsh⟩
      · exact .inl h
      · exact .inr ⟨vs, by simp [hvs], hsh⟩
    · rw [if_neg hne] at hb
      by_cases hn : hasNoneValue (dictZip hdr vals) = true
      · rw [if_pos hn] at hb
        cases hb
      · rw [if_neg hn] at hb
        by_cases hu : hasUnexpected hdr vals = true
        · rw [if_pos hu] at hb
          cases hb
        · rw [if_neg hu] at hb
          rcases ih _ hb with hmem | ⟨vs, hvs, hshape⟩
          · rcases mem_dinsert acc _ _ e hmem with h | h
            · exact .inl h
            · exact .inr ⟨vals, by simp, h⟩
          · exact .inr ⟨vs, by simp [hvs], hshape⟩

theorem built_entry_keys (tFile : String) (hdr : List String)
    (rows : List (List String)) (idx : Index)
    (hb : buildTendersAux tFile hdr [] rows = .ok idx)
    (e : Value × DupRec × Payload) (he : e ∈ idx) :
    e.2.1.map Prod.fst = DUP_CHECK_ORDER ∧
    e.2.2.map Prod.fst = TENDERS_PAYLOAD_ORDER := by
  rcases buildTendersAux_entries tFile hdr rows [] idx hb e he with h | ⟨vs, _, rfl⟩
  · simp at h
  · exact ⟨rfl, rfl⟩

/-! Characterization of the item loop. -/

theorem mergeOk_spec (hdr : List String) (idx : Index) (vals : List String)
    (h : mergeOk hdr idx vals = true) :
    vals ≠ [] ∧ rowOk hdr vals = true ∧
    ∃ recs, dlookup idx (tidOf hdr vals) = some recs ∧
      recs.1.find? (fun q => decide (q.2 ≠ rget (dictZip hdr vals) q.1)) = none := by
  unfold mergeOk at h
  rw [Bool.and_eq_true, Bool.and_eq_true] at h
  obtain ⟨⟨hne, hok⟩, hm⟩ := h
  refine ⟨List.isEmpty_eq_false.mp (Bool.not_eq_true' .. ▸ hne), hok, ?_⟩
  cases hl : dlookup idx (tidOf hdr vals) with
  | none => rw [hl] at hm; cases hm
  | some recs =>
    rw [hl] at hm
    refine ⟨recs, rfl, List.find?_eq_none.mpr ?_⟩
    intro q hq
    have : q.2 == rget (dictZip hdr vals) q.1 := List.all_eq_true.mp hm q hq
    simp only [decide_eq_true_eq, ne_eq, not_not]
    exact eq_of_beq this

theorem mergeLoop_cons_ok (tFile : String) (hdr fields : List String)
    (idx : Index) (vals : List String) (rest : List (List String))
    (h : mergeOk hdr idx vals = true) :
    mergeLoop tFile hdr fields idx (vals :: rest) =
      (outLineOf hdr fields idx vals :: (mergeLoop tFile hdr fields idx rest).1,
       (mergeLoop tFile hdr fields idx rest).2) := by
  obtain ⟨h1, h2, recs, hl, hf⟩ := mergeOk_spec hdr idx vals h
  obtain ⟨hn, hu⟩ := rowOk_spec hdr vals h2
  have hne : vals.isEmpty = false := List.isEmpty_eq_false.mpr h1
  simp only [ne_eq, decide_not] at hf
  simp [mergeLoop, hne, hn, hu, hl, hf, outLineOf, payloadLookup]

theorem mergeLoop_all_ok (tFile : String) (hdr fields : List String)
    (idx : Index) (rows : List (List String))
    (h : ∀ vs ∈ rows, mergeOk hdr idx vs = true) :
    mergeLoop tFile hdr fields idx rows =
      (rows.map (outLineOf hdr fields idx), none) := by
  induction rows with
  | nil => rfl
  | cons vals rest ih =>
    rw [mergeLoop_cons_ok tFile hdr fields idx vals rest (h vals (by simp)),
      ih (fun vs hvs => h vs (by simp [hvs])), List.map_cons]

theorem mergeLoop_append_ok (tFile : String) (hdr fields : List String)
    (idx : Index) (pre rows : List (List String))
    (h : ∀ vs ∈ pre, mergeOk hdr idx vs = true) :
    mergeLoop tFile hdr fields idx (pre ++ rows) =
      (pre.map (outLineOf hdr fields idx) ++ (mergeLoop tFile hdr fields idx rows).1,
       (mergeLoop tFile hdr fields idx rows).2) := by
  induction pre with
  | nil => simp
  | cons vals rest ih =>
    rw [List.cons_append,
      mergeLoop_cons_ok tFile hdr fields idx vals (rest ++ rows) (h vals (by simp)),
      ih (fun vs hvs => h vs (by simp [hvs])), List.map_cons, List.cons_append]

theorem mergeLoop_cons_noneValue (tFile : String) (hdr fields : List String)
    (idx : Index) (vals : List String) (rest : List (List String))
    (h1 : vals ≠ []) (h2 : hasNoneValue (dictZip hdr vals) = true) :
    mergeLoop tFile hdr fields idx (vals :: rest) =
      ([], some (.MalformedRow ("Empty value in item from " ++ tFile ++ "."))) := by
  have hne : vals.isEmpty = false := List.isEmpty_eq_false.mpr h1
  simp [mergeLoop, hne, h2]

theorem mergeLoop_cons_unexpected (tFile : String) (hdr fields : List String)
    (idx : Index) (vals : List String) (rest : List (List String))
    (h1 : vals ≠ []) (h2 : hasNoneValue (dictZip hdr vals) = false)
    (h3 : hasUnexpected hdr vals = true) :
    mergeLoop tFile hdr fields idx (vals :: rest) =
      ([], some (.UnexpectedColumns ("Extra value in item from " ++ tFile ++ "."))) := by
  have hne : vals.isEmpty = false := List.isEmpty_eq_false.mpr h1
  simp [mergeLoop, hne, h2, h3]

theorem mergeLoop_cons_unknown (tFile : String) (hdr fields : List String)
    (idx : Index) (vals : List String) (rest : List (List String))
    (h1 : vals ≠ []) (h2 : rowOk hdr vals = true)
    (h3 : dlookup idx (tidOf hdr vals) = none) :
    mergeLoop tFile hdr fields idx (vals :: rest) =
      ([], some (.UnknownTransaction
        (pyStr (tidOf hdr vals) ++ " is not in " ++ tFile ++ "."))) := by
  obtain ⟨hn, hu⟩ := rowOk_spec hdr vals h2
  have hne : vals.isEmpty = false := List.isEmpty_eq_false.mpr h1
  simp [mergeLoop, hne, hn, hu, h3]

theorem mergeLoop_cons_mismatch (tFile : String) (hdr fields : List String)
    (idx : Index) (vals : List String) (rest : List (List String))
    (recs : DupRec × Payload) (q : String × Value)
    (h1 : vals ≠ []) (h2 : rowOk hdr vals = true)
    (h3 : dlookup idx (tidOf hdr vals) = some recs)
    (h4 : recs.1.find? (fun q => decide (q.2 ≠ rget (dictZip hdr vals) q.1))
      = some q) :
    mergeLoop tFile hdr fields idx (vals :: rest) =
      ([], some (.DuplicateFieldMismatch
        ("Mismatch between item and tender for " ++ q.1 ++ "."))) := by
  obtain ⟨hn, hu⟩ := rowOk_spec hdr vals h2
  have hne : vals.isEmpty = false := List.isEmpty_eq_false.mpr h1
  simp only [ne_eq, decide_not] at h4
  simp [mergeLoop, hne, hn, hu, h3, h4]

/-- Unfolding of `run` once both schema checks pass and the index is
non-empty: the header line plus whatever the item loop produces. -/
theorem run_stage (tFile iFile : String) (tHdr : List String)
    (tRows : List (List String)) (iHdr : List String)
    (iRows : List (List String)) (includeQ excludeQ : Option (List String))
    (idx : Index) (fst : Value × DupRec × Payload)
    (h1 : setEq tHdr TENDERS_FIELDS = true)
    (hb : buildTendersAux tFile tHdr [] tRows = .ok idx)
    (hh : idx.head? = some fst)
    (h2 : setEq iHdr ITEM_FIELDS = true) :
    run tFile iFile tHdr tRows iHdr iRows includeQ excludeQ =
      { output := String.intercalate ","
          (computeFields includeQ excludeQ iHdr (fst.2.2.map Prod.fst)) ::
          (mergeLoop tFile iHdr
            (computeFields includeQ excludeQ iHdr (fst.2.2.map Prod.fst))
            idx iRows).1,
        error := (mergeLoop tFile iHdr
          (computeFields includeQ excludeQ iHdr (fst.2.2.map Prod.fst))
          idx iRows).2 } := by
  simp [run, h1, hb, hh, h2]

theorem mem_of_dlookup {κ α : Type} [DecidableEq κ] (m : List (κ × α)) (k : κ)
    (v : α) (h : dlookup m k = some v) : (k, v) ∈ m := by
  induction m with
  | nil => cases h
  | cons p r ih =>
    unfold dlookup at h
    cases hr : dlookup r k with
    | some w =>
      rw [hr] at h
      cases h
      exact List.mem_cons_of_mem p (ih hr)
    | none =>
      rw [hr] at h
      by_cases hp : p.1 = k
      · rw [if_pos hp] at h
        cases h
        have hkp : (k, p.2) = p := by rw [← hp]
        exact hkp ▸ List.mem_cons_self p r
      · rw [if_neg hp] at h
        cases h

/-- Every payload column is bound, in the payload record of a tenders line, to
the value of the tenders column `renameSrc` maps it to. -/
theorem payloadOf_mem_rename (hdr : List String) (vals : List String)
    (k : String) (hk : k ∈ TENDERS_PAYLOAD_ORDER) :
    (k, rget (dictZip hdr vals) (renameSrc k)) ∈ payloadOf hdr vals := by
  fin_cases hk <;> simp [payloadOf, renameSrc]

/-! The claims. -/

/-- C10: if the tenders table has a valid header but zero data rows, the run
neither succeeds nor fails cleanly: `list(tenders)[0]` (source line 181)
raises an uncaught `IndexError` before the item table is validated, for every
item table and every column selection (and with no output written). -/
theorem c10_empty_tenders_crash (tFile iFile : String) (tHdr iHdr : List String)
    (iRows : List (List String)) (includeQ excludeQ : Option (List String))
    (h : setEq tHdr TENDERS_FIELDS = true) :
    run tFile iFile tHdr [] iHdr iRows includeQ excludeQ =
      { output := [], error := some .IndexErrorCrash } := by
  simp [run, h, buildTendersAux]

/-- Witness for C10 at a concrete input: the tenders header is exactly the
tenders schema, the item table is well-formed, yet the run crashes. -/
theorem c10_witness :
    run "T.csv" "I.csv" TENDERS_FIELDS [] ITEM_FIELDS [sampleItemRow]
      none none = { output := [], error := some .IndexErrorCrash } :=
  c10_empty_tenders_crash "T.csv" "I.csv" TENDERS_FIELDS ITEM_FIELDS
    [sampleItemRow] none none (by decide)

/-- C9: the pipeline is a pure function of the two parsed input tables, the
file-name strings and the column selection, so two runs on equal inputs
produce identical output (byte-identical lines and identical error). -/
theorem c9_deterministic (tF1 tF2 iF1 iF2 : String) (tH1 tH2 : List String)
    (tR1 tR2 : List (List String)) (iH1 iH2 : List String)
    (iR1 iR2 : List (List String)) (inc1 inc2 exc1 exc2 : Option (List String))
    (h1 : tF1 = tF2) (h2 : iF1 = iF2) (h3 : tH1 = tH2) (h4 : tR1 = tR2)
    (h5 : iH1 = iH2) (h6 : iR1 = iR2) (h7 : inc1 = inc2) (h8 : exc1 = exc2) :
    run tF1 iF1 tH1 tR1 iH1 iR1 inc1 exc1 =
      run tF2 iF2 tH2 tR2 iH2 iR2 inc2 exc2 := by
  subst h1 h2 h3 h4 h5 h6 h7 h8
  rfl

/-- Witness for C9: two runs of the sample pipeline agree. -/
theorem c9_witness :
    run "T.csv" "I.csv" TENDERS_FIELDS [sampleTendersRow] ITEM_FIELDS
        [sampleItemRow] none none =
      run "T.csv" "I.csv" TENDERS_FIELDS [sampleTendersRow] ITEM_FIELDS
        [sampleItemRow] none none :=
  c9_deterministic "T.csv" "T.csv" "I.csv" "I.csv" TENDERS_FIELDS TENDERS_FIELDS
    [sampleTendersRow] [sampleTendersRow] ITEM_FIELDS ITEM_FIELDS
    [sampleItemRow] [sampleItemRow] none none none none
    rfl rfl rfl rfl rfl rfl rfl rfl

/-- C8: evaluation at the failing inputs.  Every item-table validation failure
message interpolates the tenders-CSV argument (`args.tenders_CSV`, here the
string `TENDERS.csv`), not the item file `ITEMS.csv` on which the failure
occurred: the item schema mismatch of source line 184, the empty-value error
of line 199 and the extra-value error of line 203 all name the tenders file. -/
theorem c8_messages_name_tenders_file :
    (run "TENDERS.csv" "ITEMS.csv" TENDERS_FIELDS [sampleTendersRow]
        COMMON_FIELDS [] none none).error =
      some (.SchemaMismatch
        ("TENDERS.csv" ++ " is not a \"Transactions by Item\" report.")) ∧
    (run "TENDERS.csv" "ITEMS.csv" TENDERS_FIELDS [sampleTendersRow]
        ITEM_FIELDS [["x"]] none none).error =
      some (.MalformedRow ("Empty value in item from " ++ "TENDERS.csv" ++ ".")) ∧
    (run "TENDERS.csv" "ITEMS.csv" TENDERS_FIELDS [sampleTendersRow]
        ITEM_FIELDS [sampleItemRow ++ ["y"]] none none).error =
      some (.UnexpectedColumns ("Extra value in item from " ++ "TENDERS.csv" ++ ".")) := by
  refine ⟨?_, ?_, ?_⟩ <;> rfl

/-- C2 counterexample: the claim calls the two fixed schemas "21-name"
schemas, but the tenders schema has 20 distinct names and the item schema
has 22. -/
theorem c2_counterexample :
    TENDERS_FIELDS.dedup.length = 20 ∧ ITEM_FIELDS.dedup.length = 22 ∧
    ¬TENDERS_FIELDS.dedup.length = 21 ∧ ¬ITEM_FIELDS.dedup.length = 21 := by
  refine ⟨by decide, by decide, by decide, by decide⟩

/-- C2 (amended: the 20-name tenders schema, the 22-name item schema):
validation succeeds iff the header's name set equals the schema's name set
(order irrelevant), and a failed check stops the run with `SchemaMismatch`
before any data row of that table is processed — the outcome is the same for
every row list. -/
theorem c2_schema_validation :
    (∀ hdr : List String,
       setEq hdr TENDERS_FIELDS = true ↔ ∀ x, x ∈ hdr ↔ x ∈ TENDERS_FIELDS) ∧
    (∀ hdr : List String,
       setEq hdr ITEM_FIELDS = true ↔ ∀ x, x ∈ hdr ↔ x ∈ ITEM_FIELDS) ∧
    (∀ (tFile iFile : String) (tHdr : List String) (tRows : List (List String))
       (iHdr : List String) (iRows : List (List String))
       (includeQ excludeQ : Option (List String)),
       setEq tHdr TENDERS_FIELDS = false →
       run tFile iFile tHdr tRows iHdr iRows includeQ excludeQ =
         { output := [],
           error := some (.SchemaMismatch
             (tFile ++ " is not a \"Transactions Tenders\" report.")) }) ∧
    (∀ (tFile iFile : String) (tHdr : List String) (tRows : List (List String))
       (iHdr : List String) (iRows : List (List String))
       (includeQ excludeQ : Option (List String)) (idx : Index)
       (fst : Value × DupRec × Payload),
       setEq tHdr TENDERS_FIELDS = true →
       buildTendersAux tFile tHdr [] tRows = .ok idx →
       idx.head? = some fst →
       setEq iHdr ITEM_FIELDS = false →
       run tFile iFile tHdr tRows iHdr iRows includeQ excludeQ =
         { output := [],
           error := some (.SchemaMismatch
             (tFile ++ " is not a \"Transactions by Item\" report.")) }) := by
  refine ⟨?_, ?_, ?_, ?_⟩
  · intro hdr
    simp only [setEq, Bool.and_eq_true, List.all_eq_true, decide_eq_true_eq]
    exact ⟨fun h x => ⟨fun hx => h.1 x hx, fun hx => h.2 x hx⟩,
      fun h => ⟨fun x hx => (h x).mp hx, fun x hx => (h x).mpr hx⟩⟩
  · intro hdr
    simp only [setEq, Bool.and_eq_true, List.all_eq_true, decide_eq_true_eq]
    exact ⟨fun h x => ⟨fun hx => h.1 x hx, fun hx => h.2 x hx⟩,
      fun h => ⟨fun x hx => (h x).mp hx, fun x hx => (h x).mpr hx⟩⟩
  · intro tFile iFile tHdr tRows iHdr iRows includeQ excludeQ h
    simp [run, h]
  · intro tFile iFile tHdr tRows iHdr iRows includeQ excludeQ idx fst h1 hb hh h4
    simp [run, h1, hb, hh, h4]

/-- Witness for C2: a bogus one-column tenders header fails the set check and
the run stops with the tenders `SchemaMismatch`, with no output. -/
theorem c2_witness :
    run "T.csv" "I.csv" ["Bogus"] [sampleTendersRow] ITEM_FIELDS
      [sampleItemRow] none none =
      { output := [],
        error := some (.SchemaMismatch
          ("T.csv" ++ " is not a \"Transactions Tenders\" report.")) } :=
  c2_schema_validation.2.2.1 "T.csv" "I.csv" ["Bogus"] [sampleTendersRow]
    ITEM_FIELDS [sampleItemRow] none none (by decide)

/-- C7: a given (hence non-empty: the argument parser never produces an empty
include list) include list is used verbatim as the output column order;
otherwise the columns are the item header order followed by the tenders
payload order, with exclude-set members removed and the order of the rest
preserved (an absent or empty exclude removes nothing); and the tenders
payload order extracted from the first index entry at source line 181 is the
payload literal's key order. -/
theorem c7_projection :
    (∀ (l : List String) (excludeQ : Option (List String))
       (iHdr tfn : List String),
       l ≠ [] → computeFields (some l) excludeQ iHdr tfn = l) ∧
    (∀ (ex : List String) (iHdr tfn : List String),
       computeFields none (some ex) iHdr tfn =
         (iHdr ++ tfn).filter (fun v => !decide (v ∈ ex))) ∧
    (∀ iHdr tfn : List String, computeFields none none iHdr tfn = iHdr ++ tfn) ∧
    (∀ (tFile : String) (hdr : List String) (rows : List (List String))
       (idx : Index) (fst : Value × DupRec × Payload),
       buildTendersAux tFile hdr [] rows = .ok idx → idx.head? = some fst →
       fst.2.2.map Prod.fst = TENDERS_PAYLOAD_ORDER) := by
  refine ⟨?_, ?_, fun _ _ => rfl, ?_⟩
  · intro l excludeQ iHdr tfn hl
    simp [computeFields, pyTruthy, List.isEmpty_eq_false.mpr hl]
  · intro ex iHdr tfn
    cases ex with
    | nil => simp [computeFields, pyTruthy, List.filter_true]
    | cons a t => simp [computeFields, pyTruthy]
  · intro tFile hdr rows idx fst hb hh
    exact (built_entry_keys tFile hdr rows idx hb fst
      (List.mem_of_mem_head? (Option.mem_def.mpr hh))).2

/-- Witness for C7: a concrete include list is used verbatim. -/
theorem c7_witness :
    computeFields (some ["Transaction ID", "Tips"]) none ITEM_FIELDS
      TENDERS_PAYLOAD_ORDER = ["Transaction ID", "Tips"] :=
  c7_projection.1 ["Transaction ID", "Tips"] none ITEM_FIELDS
    TENDERS_PAYLOAD_ORDER (by decide)

/-- C6: when the same Transaction ID occurs in two tenders rows (`vs1` earlier
and `vs2` later, with no later row carrying that id), the build succeeds (no
error is raised) and lookup of that id returns exactly the duplicate-check and
payload records of the last occurrence `vs2`. -/
theorem c6_last_write_wins (tFile : String) (hdr : List String)
    (pre mid post : List (List String)) (vs1 vs2 : List String)
    (hall : ∀ vs ∈ pre ++ vs1 :: mid ++ vs2 :: post,
      vs ≠ [] ∧ rowOk hdr vs = true)
    (_ht : tidOf hdr vs1 = tidOf hdr vs2)
    (hpost : ∀ vs ∈ post, tidOf hdr vs ≠ tidOf hdr vs2) :
    buildTendersAux tFile hdr [] (pre ++ vs1 :: mid ++ vs2 :: post) =
      .ok ((pre ++ vs1 :: mid ++ vs2 :: post).foldl (tStep hdr) []) ∧
    dlookup ((pre ++ vs1 :: mid ++ vs2 :: post).foldl (tStep hdr) [])
        (tidOf hdr vs2) =
      some (drecOf hdr vs2, payloadOf hdr vs2) := by
  refine ⟨buildTendersAux_ok tFile hdr [] _ hall, ?_⟩
  rw [dlookup_foldl_tStep]
  have hfpost : post.reverse.find?
      (fun vs => decide (tidOf hdr vs = tidOf hdr vs2)) = none := by
    rw [List.find?_eq_none]
    intro vs hvs
    simp only [decide_eq_true_eq]
    exact hpost vs (List.mem_reverse.mp hvs)
  have hv2 : List.find? (fun vs => decide (tidOf hdr vs = tidOf hdr vs2)) [vs2]
      = some vs2 := by simp [List.find?]
  rw [show (pre ++ vs1 :: mid ++ vs2 :: post).reverse =
      post.reverse ++ [vs2] ++ (mid.reverse ++ ([vs1] ++ pre.reverse)) from by
    simp]
  rw [List.find?_append, List.find?_append, hfpost, hv2]
  simp

/-- Witness for C6: two sample tenders rows share Transaction ID `T1`; the
build succeeds and lookup yields the second row's records. -/
theorem c6_witness :
    buildTendersAux "T.csv" TENDERS_FIELDS []
        [sampleTendersRow, sampleTendersRow2] =
      .ok ([sampleTendersRow, sampleTendersRow2].foldl (tStep TENDERS_FIELDS) []) ∧
    dlookup ([sampleTendersRow, sampleTendersRow2].foldl (tStep TENDERS_FIELDS) [])
        (tidOf TENDERS_FIELDS sampleTendersRow2) =
      some (drecOf TENDERS_FIELDS sampleTendersRow2,
        payloadOf TENDERS_FIELDS sampleTendersRow2) :=
  c6_last_write_wins "T.csv" TENDERS_FIELDS [] [] [] sampleTendersRow
    sampleTendersRow2 (by decide) (by decide) (by decide)

/-- C3 counterexample: a declared column's value that is the empty string is
NOT rejected: `sampleItemRow` has `""` in its Modifiers column, yet the run
completes without `MalformedRow` (only the `None` rest-value of a short line
is caught by `None in row.values()`). -/
theorem c3_counterexample :
    rget (dictZip ITEM_FIELDS sampleItemRow) "Modifiers" = some "" ∧
    (run "T.csv" "I.csv" TENDERS_FIELDS [sampleTendersRow] ITEM_FIELDS
      [sampleItemRow] none none).error = none :=
  ⟨rfl, rfl⟩

/-- C3 (amended: a row fails with `MalformedRow` when a declared column's
value is ABSENT — the `None` rest-value of a line shorter than the header;
present-but-empty strings are accepted — and with `UnexpectedColumns` when
the line has more values than the header declares; each check aborts at the
first offending row of either table, before any value of that row is used
(the outcome does not depend on the rows after it), though lines merged
earlier in the item loop have already been written). -/
theorem c3_row_normalization :
    (∀ (tFile : String) (hdr : List String) (acc : Index)
       (pre : List (List String)) (vals : List String)
       (rest : List (List String)),
       (∀ vs ∈ pre, vs ≠ [] ∧ rowOk hdr vs = true) →
       vals ≠ [] → hasNoneValue (dictZip hdr vals) = true →
       buildTendersAux tFile hdr acc (pre ++ vals :: rest) =
         .error (.MalformedRow ("Empty value in tender from " ++ tFile ++ "."))) ∧
    (∀ (tFile : String) (hdr : List String) (acc : Index)
       (pre : List (List String)) (vals : List String)
       (rest : List (List String)),
       (∀ vs ∈ pre, vs ≠ [] ∧ rowOk hdr vs = true) →
       vals ≠ [] → hasNoneValue (dictZip hdr vals) = false →
       hasUnexpected hdr vals = true →
       buildTendersAux tFile hdr acc (pre ++ vals :: rest) =
         .error (.UnexpectedColumns ("Extra value in tender from " ++ tFile ++ "."))) ∧
    (∀ (tFile : String) (hdr fields : List String) (idx : Index)
       (pre : List (List String)) (vals : List String)
       (rest : List (List String)),
       (∀ vs ∈ pre, mergeOk hdr idx vs = true) →
       vals ≠ [] → hasNoneValue (dictZip hdr vals) = true →
       mergeLoop tFile hdr fields idx (pre ++ vals :: rest) =
         (pre.map (outLineOf hdr fields idx),
          some (.MalformedRow ("Empty value in item from " ++ tFile ++ ".")))) ∧
    (∀ (tFile : String) (hdr fields : List String) (idx : Index)
       (pre : List (List String)) (vals : List String)
       (rest : List (List String)),
       (∀ vs ∈ pre, mergeOk hdr idx vs = true) →
       vals ≠ [] → hasNoneValue (dictZip hdr vals) = false →
       hasUnexpected hdr vals = true →
       mergeLoop tFile hdr fields idx (pre ++ vals :: rest) =
         (pre.map (outLineOf hdr fields idx),
          some (.UnexpectedColumns ("Extra value in item from " ++ tFile ++ ".")))) := by
  refine ⟨?_, ?_, ?_, ?_⟩
  · intro tFile hdr acc pre vals rest hpre h1 h2
    rw [buildTendersAux_append_ok tFile hdr acc pre (vals :: rest) hpre,
      buildTendersAux_cons_noneValue tFile hdr _ vals rest h1 h2]
  · intro tFile hdr acc pre vals rest hpre h1 h2 h3
    rw [buildTendersAux_append_ok tFile hdr acc pre (vals :: rest) hpre,
      buildTendersAux_cons_unexpected tFile hdr _ vals rest h1 h2 h3]
  · intro tFile hdr fields idx pre vals rest hpre h1 h2
    rw [mergeLoop_append_ok tFile hdr fields idx pre (vals :: rest) hpre,
      mergeLoop_cons_noneValue tFile hdr fields idx vals rest h1 h2]
    simp
  · intro tFile hdr fields idx pre vals rest hpre h1 h2 h3
    rw [mergeLoop_append_ok tFile hdr fields idx pre (vals :: rest) hpre,
      mergeLoop_cons_unexpected tFile hdr fields idx vals rest h1 h2 h3]
    simp

/-- Witness for C3: after one good item line, a one-value line (its other 21
declared columns absent) stops the item loop with the `MalformedRow` error. -/
theorem c3_witness :
    mergeLoop "T.csv" ITEM_FIELDS (ITEM_FIELDS ++ TENDERS_PAYLOAD_ORDER)
      sampleIdx [sampleItemRow, ["x"]] =
      ([sampleItemRow].map
        (outLineOf ITEM_FIELDS (ITEM_FIELDS ++ TENDERS_PAYLOAD_ORDER) sampleIdx),
       some (.MalformedRow ("Empty value in item from " ++ "T.csv" ++ "."))) :=
  c3_row_normalization.2.2.1 "T.csv" ITEM_FIELDS
    (ITEM_FIELDS ++ TENDERS_PAYLOAD_ORDER) sampleIdx [sampleItemRow] ["x"] []
    (by decide) (by decide) (by decide)

/-- C4 counterexample: a failing run CAN produce partial output.  With one
mergeable item row followed by one whose Transaction ID `T2` is unknown, the
run aborts with `UnknownTransaction` naming `T2`, but the header line and the
first merged row were already written (two output lines, not zero). -/
theorem c4_counterexample :
    (run "T.csv" "I.csv" TENDERS_FIELDS [sampleTendersRow] ITEM_FIELDS
      [sampleItemRow, sampleItemRowT2] none none).error =
      some (.UnknownTransaction ("T2" ++ " is not in " ++ "T.csv" ++ ".")) ∧
    (run "T.csv" "I.csv" TENDERS_FIELDS [sampleTendersRow] ITEM_FIELDS
      [sampleItemRow, sampleItemRowT2] none none).output.length = 2 :=
  ⟨rfl, rfl⟩

/-- C4 (amended: if an item row's Transaction ID is absent from the tenders
index, the whole run aborts with `UnknownTransaction` naming that id and no
further row is processed; however the run is not output-free — the header
line and the rows merged before the failing row have already been written). -/
theorem c4_unknown_transaction (tFile iFile : String) (tHdr : List String)
    (tRows : List (List String)) (iHdr : List String)
    (pre : List (List String)) (vals : List String)
    (rest : List (List String)) (includeQ excludeQ : Option (List String))
    (idx : Index) (fst : Value × DupRec × Payload)
    (h1 : setEq tHdr TENDERS_FIELDS = true)
    (hb : buildTendersAux tFile tHdr [] tRows = .ok idx)
    (hh : idx.head? = some fst)
    (h2 : setEq iHdr ITEM_FIELDS = true)
    (hpre : ∀ vs ∈ pre, mergeOk iHdr idx vs = true)
    (hv1 : vals ≠ []) (hv2 : rowOk iHdr vals = true)
    (hv3 : dlookup idx (tidOf iHdr vals) = none) :
    run tFile iFile tHdr tRows iHdr (pre ++ vals :: rest) includeQ excludeQ =
      { output := String.intercalate ","
          (computeFields includeQ excludeQ iHdr (fst.2.2.map Prod.fst)) ::
          pre.map (outLineOf iHdr
            (computeFields includeQ excludeQ iHdr (fst.2.2.map Prod.fst)) idx),
        error := some (.UnknownTransaction
          (pyStr (tidOf iHdr vals) ++ " is not in " ++ tFile ++ ".")) } := by
  rw [run_stage tFile iFile tHdr tRows iHdr (pre ++ vals :: rest) includeQ
      excludeQ idx fst h1 hb hh h2,
    mergeLoop_append_ok _ _ _ _ _ _ hpre,
    mergeLoop_cons_unknown _ _ _ _ _ _ hv1 hv2 hv3]
  simp

/-- Witness for C4: the amended statement at the concrete two-row item table,
showing the header line plus one already-merged row in the output. -/
theorem c4_witness :
    run "T.csv" "I.csv" TENDERS_FIELDS [sampleTendersRow] ITEM_FIELDS
      [sampleItemRow, sampleItemRowT2] none none =
      { output := String.intercalate "," (ITEM_FIELDS ++ TENDERS_PAYLOAD_ORDER) ::
          [sampleItemRow].map
            (outLineOf ITEM_FIELDS (ITEM_FIELDS ++ TENDERS_PAYLOAD_ORDER) sampleIdx),
        error := some (.UnknownTransaction
          ("T2" ++ " is not in " ++ "T.csv" ++ ".")) } :=
  c4_unknown_transaction "T.csv" "I.csv" TENDERS_FIELDS [sampleTendersRow]
    ITEM_FIELDS [sampleItemRow] sampleItemRowT2 [] none none sampleIdx
    (tidOf TENDERS_FIELDS sampleTendersRow,
      (drecOf TENDERS_FIELDS sampleTendersRow,
       payloadOf TENDERS_FIELDS sampleTendersRow))
    (by decide) rfl rfl (by decide) (by decide) (by decide) (by decide) rfl

/-- C5: for an item row whose Transaction ID is indexed, if a duplicate-check
field disagrees with the indexed tenders value, the run aborts with
`DuplicateFieldMismatch` naming the (first) disagreeing field; the fields
compared are exactly Time, Register Name/Number, Cashier Name and Operation
Type — the three common money fields are not among them. -/
theorem c5_duplicate_field_mismatch (tFile iFile : String)
    (tHdr : List String) (tRows : List (List String)) (iHdr : List String)
    (pre : List (List String)) (vals : List String)
    (rest : List (List String)) (includeQ excludeQ : Option (List String))
    (idx : Index) (fst : Value × DupRec × Payload) (recs : DupRec × Payload)
    (q : String × Value)
    (h1 : setEq tHdr TENDERS_FIELDS = true)
    (hb : buildTendersAux tFile tHdr [] tRows = .ok idx)
    (hh : idx.head? = some fst)
    (h2 : setEq iHdr ITEM_FIELDS = true)
    (hpre : ∀ vs ∈ pre, mergeOk iHdr idx vs = true)
    (hv1 : vals ≠ []) (hv2 : rowOk iHdr vals = true)
    (hv3 : dlookup idx (tidOf iHdr vals) = some recs)
    (hv4 : recs.1.find? (fun q => decide (q.2 ≠ rget (dictZip iHdr vals) q.1))
      = some q) :
    run tFile iFile tHdr tRows iHdr (pre ++ vals :: rest) includeQ excludeQ =
      { output := String.intercalate ","
          (computeFields includeQ excludeQ iHdr (fst.2.2.map Prod.fst)) ::
          pre.map (outLineOf iHdr
            (computeFields includeQ excludeQ iHdr (fst.2.2.map Prod.fst)) idx),
        error := some (.DuplicateFieldMismatch
          ("Mismatch between item and tender for " ++ q.1 ++ ".")) } ∧
    recs.1.map Prod.fst = DUP_CHECK_ORDER ∧ q.1 ∈ DUP_CHECK_ORDER := by
  have hkeys := (built_entry_keys tFile tHdr tRows idx hb (tidOf iHdr vals, recs)
    (mem_of_dlookup idx _ recs hv3)).1
  refine ⟨?_, hkeys, ?_⟩
  · rw [run_stage tFile iFile tHdr tRows iHdr (pre ++ vals :: rest) includeQ
        excludeQ idx fst h1 hb hh h2,
      mergeLoop_append_ok _ _ _ _ _ _ hpre,
      mergeLoop_cons_mismatch _ _ _ _ _ _ recs q hv1 hv2 hv3 hv4]
    simp
  · rw [← hkeys]
    exact List.mem_map_of_mem Prod.fst (List.mem_of_find?_eq_some hv4)

/-- Witness for C5: the sample item row with Cashier Name `Bob` against the
indexed `Alice` aborts the run naming `Cashier Name`. -/
theorem c5_witness :
    run "T.csv" "I.csv" TENDERS_FIELDS [sampleTendersRow] ITEM_FIELDS
      [sampleItemRowBob] none none =
      { output := [String.intercalate "," (ITEM_FIELDS ++ TENDERS_PAYLOAD_ORDER)],
        error := some (.DuplicateFieldMismatch
          ("Mismatch between item and tender for " ++ "Cashier Name" ++ ".")) } ∧
    (drecOf TENDERS_FIELDS sampleTendersRow,
      payloadOf TENDERS_FIELDS sampleTendersRow).1.map Prod.fst = DUP_CHECK_ORDER ∧
    "Cashier Name" ∈ DUP_CHECK_ORDER :=
  c5_duplicate_field_mismatch "T.csv" "I.csv" TENDERS_FIELDS [sampleTendersRow]
    ITEM_FIELDS [] sampleItemRowBob [] none none sampleIdx
    (tidOf TENDERS_FIELDS sampleTendersRow,
      (drecOf TENDERS_FIELDS sampleTendersRow,
       payloadOf TENDERS_FIELDS sampleTendersRow))
    (drecOf TENDERS_FIELDS sampleTendersRow,
      payloadOf TENDERS_FIELDS sampleTendersRow)
    ("Cashier Name", some "Alice")
    (by decide) rfl rfl (by decide) (by decide) (by decide) (by decide)
    (by decide) (by decide)

/-- C1: when every item row is non-blank, passes the row checks, has its
Transaction ID in the index built from the tenders table, and agrees on all
duplicate-check fields, the run succeeds and the output is the header line
followed by exactly one merged line per item row, in item-table order;
moreover each item row's merged row carries every tenders payload field of
the matching tenders row: the three overlapping names hold the tenders row's
Net Total / Tax / Total Due values under the names Tenders Net Total /
Tenders Tax / Tenders Total Due, and every other payload field is copied
verbatim (`renameSrc` is the identity on it). -/
theorem c1_merge_completeness (tFile iFile : String) (tHdr : List String)
    (tRows : List (List String)) (iHdr : List String)
    (iRows : List (List String)) (includeQ excludeQ : Option (List String))
    (idx : Index) (fst : Value × DupRec × Payload)
    (h1 : setEq tHdr TENDERS_FIELDS = true)
    (hb : buildTendersAux tFile tHdr [] tRows = .ok idx)
    (hh : idx.head? = some fst)
    (h2 : setEq iHdr ITEM_FIELDS = true)
    (hm : ∀ vs ∈ iRows, mergeOk iHdr idx vs = true) :
    run tFile iFile tHdr tRows iHdr iRows includeQ excludeQ =
      { output := String.intercalate ","
          (computeFields includeQ excludeQ iHdr (fst.2.2.map Prod.fst)) ::
          iRows.map (outLineOf iHdr
            (computeFields includeQ excludeQ iHdr (fst.2.2.map Prod.fst)) idx),
        error := none } ∧
    (∀ vs ∈ iRows, ∃ tvs ∈ tRows,
       tidOf tHdr tvs = tidOf iHdr vs ∧
       payloadLookup iHdr idx vs = payloadOf tHdr tvs ∧
       ∀ k ∈ TENDERS_PAYLOAD_ORDER,
         rget (mergedRowOf iHdr (payloadLookup iHdr idx vs) vs) k =
           rget (dictZip tHdr tvs) (renameSrc k)) := by
  constructor
  · rw [run_stage tFile iFile tHdr tRows iHdr iRows includeQ excludeQ idx fst
        h1 hb hh h2,
      mergeLoop_all_ok _ _ _ _ _ hm]
  · intro vs hvs
    obtain ⟨-, -, recs, hl, -⟩ := mergeOk_spec iHdr idx vs (hm vs hvs)
    have hmem := mem_of_dlookup idx _ recs hl
    rcases buildTendersAux_entries tFile tHdr tRows [] idx hb _ hmem with
      h | ⟨tvs, htvs, heq⟩
    · simp at h
    · have hid : tidOf tHdr tvs = tidOf iHdr vs := (congrArg Prod.fst heq).symm
      have hrecs : recs = (drecOf tHdr tvs, payloadOf tHdr tvs) :=
        congrArg Prod.snd heq
      have hpl : payloadLookup iHdr idx vs = payloadOf tHdr tvs := by
        unfold payloadLookup
        rw [hl, hrecs]
        rfl
      refine ⟨tvs, htvs, hid, hpl, ?_⟩
      intro k hk
      rw [hpl]
      exact rget_mergedRowOf_mem iHdr (payloadOf tHdr tvs) vs
        (k, rget (dictZip tHdr tvs) (renameSrc k))
        (by rw [payloadOf_keys]; decide)
        (payloadOf_mem_rename tHdr tvs k hk)

/-- Witness for C1: the one-row sample tables merge to a header line plus one
merged line, and the merged row holds the tenders row's Net Total under the
name Tenders Net Total. -/
theorem c1_witness :
    run "T.csv" "I.csv" TENDERS_FIELDS [sampleTendersRow] ITEM_FIELDS
      [sampleItemRow] none none =
      { output := String.intercalate "," (ITEM_FIELDS ++ TENDERS_PAYLOAD_ORDER) ::
          [sampleItemRow].map
            (outLineOf ITEM_FIELDS (ITEM_FIELDS ++ TENDERS_PAYLOAD_ORDER) sampleIdx),
        error := none } ∧
    rget (mergedRowOf ITEM_FIELDS
        (payloadLookup ITEM_FIELDS sampleIdx sampleItemRow) sampleItemRow)
      "Tenders Net Total" = some "9.00" := by
  have h := c1_merge_completeness "T.csv" "I.csv" TENDERS_FIELDS
    [sampleTendersRow] ITEM_FIELDS [sampleItemRow] none none sampleIdx
    (tidOf TENDERS_FIELDS sampleTendersRow,
      (drecOf TENDERS_FIELDS sampleTendersRow,
       payloadOf TENDERS_FIELDS sampleTendersRow))
    (by decide) rfl rfl (by decide) (by decide)
  refine ⟨h.1, ?_⟩
  obtain ⟨tvs, htvs, -, -, hren⟩ := h.2 sampleItemRow (by simp)
  have htv : tvs = sampleTendersRow := List.mem_singleton.mp htvs
  subst htv
  have hk := hren "Tenders Net Total" (by decide)
  rw [hk]
  rfl

end ShopkeepCombineCsv
